import Mathlib

/-!
Verification of the departure fetching, filtering and transformation logic of
`fetch_departures.js` (Bad Vöslau ↔ Wien train timetable fetcher).

The JavaScript source is shallowly embedded: upstream HAFAS responses become
explicit parameters, JS objects become structures with `Option` fields for
possibly-missing properties, JS exceptions become `Except`, and epoch-ms
timestamps become `Int`.
-/

namespace TrainTimetable

/-! ## JS string primitives used by the script -/

/-- Models `String.prototype.toLowerCase` restricted to the alphabet these
predicates compare against: ASCII letters plus the German umlauts appearing in
the station keywords. Other characters are unchanged. -/
def jsCharToLower (c : Char) : Char :=
  if 'A' ≤ c ∧ c ≤ 'Z' then Char.ofNat (c.toNat + 32)
  else if c = 'Ö' then 'ö'
  else if c = 'Ä' then 'ä'
  else if c = 'Ü' then 'ü'
  else c

/-- Models `s.toLowerCase()`. -/
def jsToLower (s : String) : String := String.mk (s.toList.map jsCharToLower)

/-- `leadsChars pat s` : `pat` is an initial segment of `s`. -/
def leadsChars (pat s : List Char) : Bool :=
  match pat, s with
  | [], _ => true
  | _ :: _, [] => false
  | a :: as, b :: bs => a == b && leadsChars as bs

/-- `occursIn pat s` : `pat` occurs contiguously somewhere inside `s`. -/
def occursIn (pat s : List Char) : Bool :=
  match s with
  | [] => leadsChars pat []
  | _ :: rest => leadsChars pat s || occursIn pat rest

/-- Models `s.includes(pat)`: `pat` occurs as a contiguous substring of `s`. -/
def strContains (s pat : String) : Bool := occursIn pat.toList s.toList

/-- Models the JS idiom `x || dflt` on an optional string: a missing value and
the empty string (both falsy) are replaced by the default. -/
def jsOrStr (o : Option String) (dflt : String) : String :=
  match o with
  | some s => if s = "" then dflt else s
  | none => dflt

/-! ## Data model

`RawDeparture` mirrors the fields of an upstream HAFAS departure record that
`fetch_departures.js` reads; every field the script accesses through optional
chaining or truthiness checks is an `Option`. -/

structure Line where
  name : Option String
  mode : Option String
  deriving Repr, DecidableEq

structure RawDeparture where
  when : Option Int
  destinationName : Option String
  direction : Option String
  line : Option Line
  platform : Option String
  delay : Option Int
  cancelled : Option Bool
  deriving Repr, DecidableEq

/-- Models `departure.line?.mode`. -/
def lineMode (d : RawDeparture) : Option String := d.line.bind Line.mode

/-- Models `departure.line?.name`. -/
def lineName (d : RawDeparture) : Option String := d.line.bind Line.name

/-! ## Direction filters (`fetch_departures.js` lines 45–59 and 104–125) -/

/-- The keyword set of the Bad Vöslau → Wien filter. -/
def wienKeywords : List String := ["wien", "vienna"]

/-- Bad Vöslau → Wien filter predicate: a train-mode departure whose lowercased
destination name or direction contains a Wien keyword. -/
def keepsBadVoeslauDeparture (d : RawDeparture) : Bool :=
  let destination := jsToLower (d.destinationName.getD "")
  let direction := jsToLower (d.direction.getD "")
  let hasWienKeyword := wienKeywords.any fun keyword =>
    strContains destination keyword || strContains direction keyword
  decide (lineMode d = some "train") && hasWienKeyword

/-- The keyword set of the Wien → Bad Vöslau filter. -/
def routeKeywords : List String :=
  ["wr.neustadt", "wiener neustadt", "bad vöslau", "bad voeslau"]

/-- The character class `\s` of the JS regex engine. -/
def jsWhitespaceChars : List Char :=
  ['\t', '\n', '\x0b', '\x0c', '\r', ' ',
   '\u00a0', '\u1680', '\u2000', '\u2001', '\u2002', '\u2003', '\u2004',
   '\u2005', '\u2006', '\u2007', '\u2008', '\u2009', '\u200a', '\u2028',
   '\u2029', '\u202f', '\u205f', '\u3000', '\ufeff']

/-- The strings matched by one alternative of `/(REX\s?1|REX\s?3|S\s?3)/`:
each `(code, digit)` pair expands to `code ++ digit` and to
`code ++ w ++ digit` for every whitespace character `w`. -/
def lineCodePatterns : List (List Char) :=
  [("REX", "1"), ("REX", "3"), ("S", "3")].flatMap fun p =>
    (p.1.toList ++ p.2.toList) ::
      jsWhitespaceChars.map fun c => p.1.toList ++ [c] ++ p.2.toList

/-- Models `/(REX\s?1|REX\s?3|S\s?3)/.test(s)`: some alternative occurs as a
substring of `s`. -/
def matchesLineCode (s : String) : Bool :=
  lineCodePatterns.any fun alt => occursIn alt s.toList

/-- Wien → Bad Vöslau filter predicate: a train-mode departure whose lowercased
destination name or direction contains a route keyword and whose (raw) line
name matches the line-code regex. -/
def keepsWienDeparture (d : RawDeparture) : Bool :=
  let destination := jsToLower (d.destinationName.getD "")
  let direction := jsToLower (d.direction.getD "")
  let trainType := (lineName d).getD ""
  let hasRouteKeyword := routeKeywords.any fun keyword =>
    strContains destination keyword || strContains direction keyword
  decide (lineMode d = some "train") && hasRouteKeyword && matchesLineCode trainType

/-! ## Local-time formatting (`toLocaleTimeString('de-AT', …, timeZone: 'Europe/Vienna')`)

An epoch-ms timestamp is formatted as a 24-hour "HH:MM" string in the
Europe/Vienna zone. The zone is UTC+1, switching to UTC+2 between the last
Sunday of March, 01:00 UTC, and the last Sunday of October, 01:00 UTC (the EU
daylight-saving rule in force since 1996, which the IANA zone data apply to
every timestamp this script can see). The civil-calendar conversions follow
the standard proleptic-Gregorian day-counting algorithm. -/

/-- Day count since 1970-01-01 of the civil date `(y, m, d)`. -/
def daysFromCivil (y0 m d : Int) : Int :=
  let y := if m ≤ 2 then y0 - 1 else y0
  let era := Int.ediv y 400
  let yoe := y - era * 400
  let mp := if m > 2 then m - 3 else m + 9
  let doy := Int.ediv (153 * mp + 2) 5 + d - 1
  let doe := yoe * 365 + Int.ediv yoe 4 - Int.ediv yoe 100 + doy
  era * 146097 + doe - 719468

/-- Civil year containing the day `z` (days since 1970-01-01). -/
def yearFromDays (z0 : Int) : Int :=
  let z := z0 + 719468
  let era := Int.ediv z 146097
  let doe := z - era * 146097
  let yoe :=
    Int.ediv (doe - Int.ediv doe 1460 + Int.ediv doe 36524 - Int.ediv doe 146096) 365
  let y := yoe + era * 400
  let doy := doe - (365 * yoe + Int.ediv yoe 4 - Int.ediv yoe 100)
  let mp := Int.ediv (5 * doy + 2) 153
  let m := mp + (if mp < 10 then 3 else -9)
  if m ≤ 2 then y + 1 else y

/-- Day count of the last Sunday of month `m` (March or October: 31 days) of
year `y`. Day 0 (1970-01-01) was a Thursday, so `(z + 4) % 7 = 0` means
Sunday. -/
def lastSundayDays (y m : Int) : Int :=
  let d31 := daysFromCivil y m 31
  d31 - Int.emod (d31 + 4) 7

/-- UTC offset of Europe/Vienna, in milliseconds, at epoch-ms instant `t`. -/
def viennaOffsetMs (t : Int) : Int :=
  let y := yearFromDays (Int.ediv t 86400000)
  let dstStart := (lastSundayDays y 3 * 86400 + 3600) * 1000
  let dstEnd := (lastSundayDays y 10 * 86400 + 3600) * 1000
  if dstStart ≤ t ∧ t < dstEnd then 7200000 else 3600000

/-- Two-digit zero-padded decimal rendering of `n` (`0 ≤ n < 100` in use). -/
def pad2 (n : Int) : String :=
  if n < 10 then "0" ++ toString n else toString n

/-- Models `new Date(t).toLocaleTimeString('de-AT', { hour: '2-digit',
minute: '2-digit', timeZone: 'Europe/Vienna' })`: 24-hour "HH:MM". -/
def viennaHHMM (t : Int) : String :=
  let loc := t + viennaOffsetMs t
  let minutes := Int.ediv loc 60000
  pad2 (Int.emod (Int.ediv minutes 60) 24) ++ ":" ++ pad2 (Int.emod minutes 60)

/-! ## Transform (`transformTrainData`, lines 141–179) -/

/-- The value of the `rt` key: `dlt` is a time string or JS `null`. -/
structure RtInfo where
  dlt : Option String
  deriving Repr, DecidableEq

/-- One output record of `transformTrainData`. `rt = none` models the `rt`
key being entirely absent (JS `undefined` property). -/
structure NormalizedDeparture where
  ti : String
  st : String
  pr : String
  tr : String
  rt : Option RtInfo
  direction : String
  delay : Int
  cancelled : Bool
  deriving Repr, DecidableEq

/-- The per-departure body of `transformTrainData`'s `map` callback. -/
def transformOne (d : RawDeparture) : NormalizedDeparture :=
  let scheduledTime : Option Int := d.when
  let actualTime : Option Int :=
    match d.delay, scheduledTime with
    | some dl, some t => if dl ≠ 0 then some (t + dl * 1000) else none
    | _, _ => none
  { ti :=
      match scheduledTime with
      | some t => viennaHHMM t
      | none => "N/A"
    st := jsOrStr d.destinationName "Unknown"
    pr := jsOrStr (lineName d) "Unknown"
    tr := jsOrStr d.platform ""
    rt :=
      match d.delay with
      | some dl => if dl ≠ 0 ∧ dl > 0 then some ⟨actualTime.map viennaHHMM⟩ else none
      | none => none
    direction := jsOrStr d.direction ""
    delay := d.delay.getD 0
    cancelled := d.cancelled.getD false }

/-- Models `transformTrainData(trains)`. -/
def transformTrainData (trains : List RawDeparture) : List NormalizedDeparture :=
  trains.map transformOne

/-! ## Station resolution (lines 19–30 and 73–88) -/

structure Station where
  id : Option String
  name : Option String
  deriving Repr, DecidableEq

/-- The callback of `stations.find` in `fetchBadVoeslauDepartures`:
`station.name && station.name.toLowerCase().includes('bad vöslau')`. -/
def badVoeslauNameMatch (s : Station) : Bool :=
  match s.name with
  | some n => n ≠ "" && strContains (jsToLower n) "bad vöslau"
  | none => false

/-- The error thrown when the Bad Vöslau location search yields nothing. -/
def noStationsFoundMsg : String := "No stations found for \"Bad Vöslau\""

/-- Station selection of `fetchBadVoeslauDepartures`: throw on an empty or
missing result list, otherwise the first name-matching candidate, falling back
to the first candidate (`stations.find(...) || stations[0]`). -/
def resolveBadVoeslauStation (stations : Option (List Station)) :
    Except String Station :=
  match stations with
  | none => .error noStationsFoundMsg
  | some [] => .error noStationsFoundMsg
  | some (s0 :: rest) => .ok (((s0 :: rest).find? badVoeslauNameMatch).getD s0)

/-- The callback of `stations?.find` in `fetchWienDepartures`. -/
def wienNameMatch (s : Station) : Bool :=
  let name := jsToLower (s.name.getD "")
  strContains name "wien hbf" || strContains name "wien hauptbahnhof"

/-- The hardcoded fallback station of `fetchWienDepartures`. -/
def wienFallbackStation : Station :=
  { id := some "1190100", name := some "Wien Hbf (forced fallback)" }

/-- Station selection of `fetchWienDepartures`: the first name-matching
candidate if any, otherwise the hardcoded fallback (also when the search
result is missing or empty). -/
def resolveWienStation (stations : Option (List Station)) : Station :=
  match stations.bind (List.find? wienNameMatch) with
  | some s => s
  | none => wienFallbackStation

/-! ## Departures-response normalization (lines 41 and 100)

`departures.departures || departures || []` over the possible JS shapes of the
upstream response. Property access on `null`/`undefined` throws a `TypeError`;
an array — even an empty one — is truthy; a non-array object is truthy and is
passed through unchanged (it is not a list, so the later `.filter` call on it
would throw). -/

inductive DeparturesResponse where
  | list (items : List RawDeparture)
  | objWithDepartures (items : List RawDeparture)
  | objNoDepartures
  | nullish
  deriving Repr, DecidableEq

/-- A JS value flowing into `departuresList.filter`: an array, or some
non-array object. -/
inductive JsListValue where
  | arr (items : List RawDeparture)
  | nonArray
  deriving Repr, DecidableEq

/-- Models `departures.departures || departures || []`. -/
def normalizeDepartures (resp : DeparturesResponse) :
    Except String JsListValue :=
  match resp with
  | .list items => .ok (.arr items)
  | .objWithDepartures items => .ok (.arr items)
  | .objNoDepartures => .ok .nonArray
  | .nullish => .error "TypeError: Cannot read properties of null"

/-- Models `v.filter(pred)`: throws when `v` is not an array. -/
def jsFilter (pred : RawDeparture → Bool) (v : JsListValue) :
    Except String (List RawDeparture) :=
  match v with
  | .arr items => .ok (items.filter pred)
  | .nonArray => .error "TypeError: departuresList.filter is not a function"

/-! ## Per-direction pipelines and snapshot assembly (lines 181–261) -/

/-- The value a fulfilled direction pipeline resolves to. -/
structure FetchResult where
  station : Station
  trains : List RawDeparture
  deriving Repr, DecidableEq

/-- `fetchBadVoeslauDepartures` as a function of the two upstream responses it
consumes: resolve the station, normalize the departures response, filter. -/
def fetchBadVoeslauModel (stations : Option (List Station))
    (resp : DeparturesResponse) : Except String FetchResult := do
  let station ← resolveBadVoeslauStation stations
  let v ← normalizeDepartures resp
  let trains ← jsFilter keepsBadVoeslauDeparture v
  return { station := station, trains := trains }

/-- `fetchWienDepartures` as a function of the two upstream responses. -/
def fetchWienModel (stations : Option (List Station))
    (resp : DeparturesResponse) : Except String FetchResult := do
  let station := resolveWienStation stations
  let v ← normalizeDepartures resp
  let trains ← jsFilter keepsWienDeparture v
  return { station := station, trains := trains }

/-- A station entry of the snapshot's `stations` object (`null` ↦ `none`). -/
structure StationOut where
  name : Option String
  id : Option String
  deriving Repr, DecidableEq

/-- The snapshot object written to `departures.json`. -/
structure Snapshot where
  badVoeslauToWien : List NormalizedDeparture
  wienToBadVoeslau : List NormalizedDeparture
  lastUpdated : String
  stationBadVoeslau : Option StationOut
  stationWienHbf : Option StationOut
  deriving Repr, DecidableEq

/-- Snapshot assembly from the two settled direction outcomes (lines 189–224):
a rejected direction contributes an empty list and a `null` station. -/
def buildSnapshot (now : String) (badVoeslauData wienData : Except String FetchResult) :
    Snapshot :=
  { badVoeslauToWien :=
      match badVoeslauData with
      | .ok r => transformTrainData r.trains
      | .error _ => []
    wienToBadVoeslau :=
      match wienData with
      | .ok r => transformTrainData r.trains
      | .error _ => []
    lastUpdated := now
    stationBadVoeslau :=
      match badVoeslauData with
      | .ok r => some { name := r.station.name, id := r.station.id }
      | .error _ => none
    stationWienHbf :=
      match wienData with
      | .ok r => some { name := r.station.name, id := r.station.id }
      | .error _ => none }

/-- Observable effects of one `fetchDepartures()` run. -/
inductive RunEvent where
  | wroteFile (s : Snapshot)
  | exited (code : Nat)
  deriving Repr, DecidableEq

/-- The tail of `fetchDepartures` (lines 226–256): the snapshot is written
first; then `process.exit(1)` fires exactly when both directions' lists are
empty, and otherwise the process terminates normally with code 0. -/
def runFetchDepartures (now : String)
    (badVoeslauData wienData : Except String FetchResult) : List RunEvent :=
  let output := buildSnapshot now badVoeslauData wienData
  if output.badVoeslauToWien.length = 0 ∧ output.wienToBadVoeslau.length = 0 then
    [.wroteFile output, .exited 1]
  else
    [.wroteFile output, .exited 0]

/-! ## Concrete inputs used by counterexamples and witnesses -/

/-- A raw departure reported one minute early: `delay` present and non-zero,
but negative. -/
def earlyTrainDeparture : RawDeparture :=
  { when := some 1739000000000
    destinationName := some "Wien Hbf"
    direction := some "Wien"
    line := some { name := some "S3", mode := some "train" }
    platform := some "2"
    delay := some (-60)
    cancelled := some false }

/-- A raw departure two minutes late, with a scheduled time. -/
def delayedTrainDeparture : RawDeparture :=
  { when := some 0
    destinationName := some "Wien Hbf"
    direction := some "Wien"
    line := some { name := some "S3", mode := some "train" }
    platform := some "2"
    delay := some 120
    cancelled := some false }

/-- A train-mode REX 1 departure towards Wiener Neustadt, as the Wien filter
keeps it. -/
def rex1Departure : RawDeparture :=
  { when := some 0
    destinationName := some "Wiener Neustadt Hbf"
    direction := some "Wiener Neustadt"
    line := some { name := some "REX 1", mode := some "train" }
    platform := some "1"
    delay := none
    cancelled := none }

/-- A Wien location-search result whose single candidate name contains
neither "wien hbf" nor "wien hauptbahnhof". -/
def meidlingOnlyResult : List Station :=
  [{ id := some "1190301", name := some "Wien Meidling" }]

/-- A bus-mode departure satisfying every keyword condition. -/
def busDeparture : RawDeparture :=
  { delayedTrainDeparture with line := some { name := some "S3", mode := some "bus" } }

/-- A delayed departure whose scheduled time is missing. -/
def noWhenDelayedDeparture : RawDeparture :=
  { delayedTrainDeparture with when := none }

/-! ## Prop-level characterizations used in claim statements -/

/-- `pat` occurs as a contiguous substring of `s` (mathematical form). -/
def ContainsSub (s pat : String) : Prop :=
  ∃ pre post, s.toList = pre ++ pat.toList ++ post

/-- Some alternative of the line-code regex occurs as a substring of `s`
(mathematical form). -/
def LineCodeMatch (s : String) : Prop :=
  ∃ alt ∈ lineCodePatterns, ∃ pre post, s.toList = pre ++ alt ++ post

/-! ## Lemmas about the string primitives -/

theorem leadsChars_iff (pat s : List Char) :
    leadsChars pat s = true ↔ ∃ post, s = pat ++ post := by
  induction pat generalizing s with
  | nil => simp [leadsChars]
  | cons a as ih =>
    cases s with
    | nil =>
      simp only [leadsChars, Bool.false_eq_true, false_iff]
      rintro ⟨post, h⟩
      exact absurd h (by simp)
    | cons b bs =>
      simp only [leadsChars, Bool.and_eq_true, beq_iff_eq, ih]
      constructor
      · rintro ⟨rfl, post, rfl⟩
        exact ⟨post, rfl⟩
      · rintro ⟨post, h⟩
        rw [List.cons_append] at h
        injection h with h1 h2
        exact ⟨h1.symm, post, h2⟩

theorem occursIn_iff (pat s : List Char) :
    occursIn pat s = true ↔ ∃ pre post, s = pre ++ pat ++ post := by
  induction s with
  | nil =>
    simp only [occursIn, leadsChars_iff]
    constructor
    · rintro ⟨post, h⟩
      exact ⟨[], post, by simpa using h⟩
    · rintro ⟨pre, post, h⟩
      have hpre : pre = [] := by
        cases pre with
        | nil => rfl
        | cons x xs => exact absurd h (by simp)
      subst hpre
      exact ⟨post, by simpa using h⟩
  | cons c rest ih =>
    simp only [occursIn, Bool.or_eq_true, leadsChars_iff, ih]
    constructor
    · rintro (⟨post, h⟩ | ⟨pre, post, h⟩)
      · exact ⟨[], post, by simpa using h⟩
      · exact ⟨c :: pre, post, by simp [h]⟩
    · rintro ⟨pre, post, h⟩
      cases pre with
      | nil => exact Or.inl ⟨post, by simpa using h⟩
      | cons x xs =>
        right
        rw [List.cons_append, List.cons_append] at h
        injection h with h1 h2
        exact ⟨xs, post, h2⟩

theorem strContains_iff (s pat : String) :
    strContains s pat = true ↔ ContainsSub s pat :=
  occursIn_iff pat.toList s.toList

theorem matchesLineCode_iff (s : String) :
    matchesLineCode s = true ↔ LineCodeMatch s := by
  unfold matchesLineCode LineCodeMatch
  simp only [List.any_eq_true, occursIn_iff]

/-! ## Claim theorems -/

/-- C2: a departure of the Wien → Bad Vöslau direction is kept by the filter
if and only if the line's mode is "train", the lowercased destination name or
lowercased direction contains one of the route keywords "wr.neustadt",
"wiener neustadt", "bad vöslau", "bad voeslau", and the line name matches the
line-code regex `/(REX\s?1|REX\s?3|S\s?3)/`. -/
theorem claim_C2_wien_direction_filter (l : List RawDeparture) (d : RawDeparture) :
    d ∈ l.filter keepsWienDeparture ↔
      d ∈ l ∧ lineMode d = some "train" ∧
      (∃ k ∈ routeKeywords,
        ContainsSub (jsToLower (d.destinationName.getD "")) k ∨
        ContainsSub (jsToLower (d.direction.getD "")) k) ∧
      LineCodeMatch ((lineName d).getD "") := by
  rw [List.mem_filter]
  unfold keepsWienDeparture
  simp only [Bool.and_eq_true, decide_eq_true_eq, List.any_eq_true, Bool.or_eq_true,
    strContains_iff, matchesLineCode_iff]
  aesop

/-- C3: a departure of the Bad Vöslau → Wien direction is kept by the filter
if and only if the line's mode is "train" and the lowercased destination name
or lowercased direction contains "wien" or "vienna"; in particular a
bus-mode departure is always dropped. -/
theorem claim_C3_badvoeslau_direction_filter (l : List RawDeparture) (d : RawDeparture) :
    (d ∈ l.filter keepsBadVoeslauDeparture ↔
      d ∈ l ∧ lineMode d = some "train" ∧
      (∃ k ∈ wienKeywords,
        ContainsSub (jsToLower (d.destinationName.getD "")) k ∨
        ContainsSub (jsToLower (d.direction.getD "")) k)) ∧
    (lineMode d = some "bus" → d ∉ l.filter keepsBadVoeslauDeparture) := by
  have hmain : d ∈ l.filter keepsBadVoeslauDeparture ↔
      d ∈ l ∧ lineMode d = some "train" ∧
      (∃ k ∈ wienKeywords,
        ContainsSub (jsToLower (d.destinationName.getD "")) k ∨
        ContainsSub (jsToLower (d.direction.getD "")) k) := by
    rw [List.mem_filter]
    unfold keepsBadVoeslauDeparture
    simp only [Bool.and_eq_true, decide_eq_true_eq, List.any_eq_true, Bool.or_eq_true,
      strContains_iff]
  refine ⟨hmain, fun hbus hmem => ?_⟩
  have := (hmain.mp hmem).2.1
  rw [hbus] at this
  exact absurd (Option.some.inj this) (by decide)

/-- C1 counterexample: `earlyTrainDeparture` has a present, non-zero delay
(-60 seconds), yet the transform emits no `rt` sub-object, refuting "rt is
present if and only if the delay is present and non-zero". -/
theorem claim_C1_cex_negative_delay :
    earlyTrainDeparture.delay = some (-60) ∧
    (transformTrainData [earlyTrainDeparture]).map NormalizedDeparture.rt = [none] :=
  ⟨rfl, rfl⟩

/-- C1 (amended): the transform emits the `rt` sub-object if and only if the
delay is present and strictly positive; in that case, when the scheduled time
is present, `dlt` is the scheduled time plus `delay` seconds formatted "HH:MM"
in the Europe/Vienna time zone; when the delay is 0 or absent (or negative),
the `rt` key is entirely absent. -/
theorem claim_C1_rt_sub_object (d : RawDeparture) :
    ((transformOne d).rt.isSome ↔ ∃ dl, d.delay = some dl ∧ 0 < dl) ∧
    (∀ dl t, d.delay = some dl → 0 < dl → d.when = some t →
      (transformOne d).rt = some ⟨some (viennaHHMM (t + dl * 1000))⟩) ∧
    ((d.delay = some 0 ∨ d.delay = none) → (transformOne d).rt = none) := by
  rcases hdl : d.delay with _ | dl
  · have hrt : (transformOne d).rt = none := by simp [transformOne, hdl]
    refine ⟨by rw [hrt]; simp, ?_, fun _ => hrt⟩
    rintro dl2 t h _ _
    exact Option.noConfusion h
  · by_cases hpos : 0 < dl
    · have hne : dl ≠ 0 := by omega
      have hrt : (transformOne d).rt =
          some ⟨d.when.map fun t => viennaHHMM (t + dl * 1000)⟩ := by
        rcases hw : d.when with _ | t <;> simp [transformOne, hdl, hw, hne, hpos]
      refine ⟨?_, ?_, ?_⟩
      · rw [hrt]
        simp only [Option.isSome_some, true_iff]
        exact ⟨dl, rfl, hpos⟩
      · rintro dl2 t hdl2 _ hwt
        injection hdl2 with h1
        subst h1
        rw [hrt, hwt]
        rfl
      · rintro (h | h)
        · injection h with h
          exact absurd h hne
        · exact Option.noConfusion h
    · have hcond : ¬(dl ≠ 0 ∧ dl > 0) := fun hc => hpos hc.2
      have hrt : (transformOne d).rt = none := by
        rcases hw : d.when with _ | t <;> simp [transformOne, hdl, hw, hcond]
      refine ⟨?_, ?_, fun _ => hrt⟩
      · rw [hrt]
        simp only [Option.isSome_none, Bool.false_eq_true, false_iff]
        rintro ⟨dl2, h, hp⟩
        injection h with h
        omega
      · rintro dl2 t hdl2 hp hwt
        injection hdl2 with h1
        exfalso
        omega

/-- C10: when the delay is strictly positive but the scheduled time `when` is
missing, the output has `ti = "N/A"` and `rt` present with `dlt` null; and
this is the only situation producing `rt` present with a null `dlt`. -/
theorem claim_C10_missing_when_with_delay (d : RawDeparture) :
    ((transformOne d).rt = some ⟨none⟩ ↔
      d.when = none ∧ ∃ dl, d.delay = some dl ∧ 0 < dl) ∧
    (d.when = none → (transformOne d).ti = "N/A") := by
  rcases hw : d.when with _ | t
  · have hti : (transformOne d).ti = "N/A" := by simp [transformOne, hw]
    refine ⟨?_, fun _ => hti⟩
    rcases hdl : d.delay with _ | dl
    · have hrt : (transformOne d).rt = none := by simp [transformOne, hdl]
      rw [hrt]
      constructor
      · intro h
        exact Option.noConfusion h
      · rintro ⟨_, dl2, h, _⟩
        exact Option.noConfusion h
    · by_cases hpos : 0 < dl
      · have hrt : (transformOne d).rt = some ⟨none⟩ := by
          simp [transformOne, hdl, hw, show dl ≠ 0 by omega, hpos]
        rw [hrt]
        constructor
        · intro _
          exact ⟨rfl, dl, rfl, hpos⟩
        · intro _
          rfl
      · have hcond : ¬(dl ≠ 0 ∧ dl > 0) := fun hc => hpos hc.2
        have hrt : (transformOne d).rt = none := by simp [transformOne, hdl, hcond]
        rw [hrt]
        constructor
        · intro h
          exact Option.noConfusion h
        · rintro ⟨_, dl2, h, hp⟩
          injection h with h
          exfalso
          omega
  · refine ⟨?_, fun h => Option.noConfusion h⟩
    constructor
    · intro hrt0
      exfalso
      rcases hdl : d.delay with _ | dl
      · have hrt : (transformOne d).rt = none := by simp [transformOne, hdl]
        rw [hrt] at hrt0
        exact Option.noConfusion hrt0
      · by_cases hpos : 0 < dl
        · have hrt : (transformOne d).rt = some ⟨some (viennaHHMM (t + dl * 1000))⟩ := by
            simp [transformOne, hdl, hw, show dl ≠ 0 by omega, hpos]
          rw [hrt] at hrt0
          injection hrt0 with h
          injection h with h
          exact Option.noConfusion h
        · have hcond : ¬(dl ≠ 0 ∧ dl > 0) := fun hc => hpos hc.2
          have hrt : (transformOne d).rt = none := by
            simp [transformOne, hdl, hcond]
          rw [hrt] at hrt0
          exact Option.noConfusion hrt0
    · rintro ⟨h, _⟩
      exact Option.noConfusion h

/-- Selecting from a list whose earlier entries all fail the predicate finds
the first passing entry. -/
theorem find?_first (p : Station → Bool) (pre post : List Station) (s : Station)
    (hpre : ∀ x ∈ pre, p x = false) (hs : p s = true) :
    (pre ++ s :: post).find? p = some s := by
  induction pre with
  | nil =>
    rw [List.nil_append]
    exact List.find?_cons_of_pos _ hs
  | cons a as ih =>
    have ha : p a = false := hpre a (List.mem_cons_self a as)
    rw [List.cons_append, List.find?_cons_of_neg _ (by simp [ha])]
    exact ih fun x hx => hpre x (List.mem_cons_of_mem a hx)

/-- C4: after both direction pipelines settle, the snapshot file is written
and then the process exits: with code 0 exactly when at least one direction's
normalized list is non-empty, and with code 1 when both are empty — the write
event preceding the exit event in either case. -/
theorem claim_C4_exit_contract (now : String) (r1 r2 : Except String FetchResult) :
    ∃ c : Nat,
      runFetchDepartures now r1 r2 =
        [RunEvent.wroteFile (buildSnapshot now r1 r2), RunEvent.exited c] ∧
      (c = 0 ↔ ((buildSnapshot now r1 r2).badVoeslauToWien ≠ [] ∨
                (buildSnapshot now r1 r2).wienToBadVoeslau ≠ [])) ∧
      ((buildSnapshot now r1 r2).badVoeslauToWien = [] ∧
        (buildSnapshot now r1 r2).wienToBadVoeslau = [] → c = 1) := by
  simp only [runFetchDepartures]
  split_ifs with h
  · rw [List.length_eq_zero, List.length_eq_zero] at h
    refine ⟨1, rfl, ?_, fun _ => rfl⟩
    simp [h.1, h.2]
  · rw [List.length_eq_zero, List.length_eq_zero] at h
    refine ⟨0, rfl, ?_, fun hboth => absurd hboth h⟩
    simp only [true_iff]
    exact not_and_or.mp h

/-- C4 witness: with both directions rejected, the run writes the (empty)
snapshot first and then exits with code 1. -/
theorem claim_C4_exit_contract_witness :
    runFetchDepartures "2025-01-01T00:00:00.000Z" (.error "a") (.error "b") =
      [RunEvent.wroteFile
        (buildSnapshot "2025-01-01T00:00:00.000Z" (.error "a") (.error "b")),
       RunEvent.exited 1] := by
  obtain ⟨c, htr, _, h1⟩ :=
    claim_C4_exit_contract "2025-01-01T00:00:00.000Z" (.error "a") (.error "b")
  rw [htr, h1 ⟨rfl, rfl⟩]

/-- C5: a rejected direction contributes an empty departure list and a null
station entry, while the fulfilled direction's transformed list and station
appear unchanged in the snapshot — in both orientations. -/
theorem claim_C5_failure_isolation (now msg : String) (r : FetchResult) :
    (buildSnapshot now (.error msg) (.ok r) =
      { badVoeslauToWien := []
        wienToBadVoeslau := transformTrainData r.trains
        lastUpdated := now
        stationBadVoeslau := none
        stationWienHbf := some { name := r.station.name, id := r.station.id } }) ∧
    (buildSnapshot now (.ok r) (.error msg) =
      { badVoeslauToWien := transformTrainData r.trains
        wienToBadVoeslau := []
        lastUpdated := now
        stationBadVoeslau := some { name := r.station.name, id := r.station.id }
        stationWienHbf := none }) :=
  ⟨rfl, rfl⟩

/-- C6 counterexample: a non-empty Wien location-search result in which no
candidate's lowercased name contains the expected substring resolves to the
hardcoded fallback pair, not to the first returned candidate. -/
theorem claim_C6_cex_nonempty_hardcoded_fallback :
    meidlingOnlyResult ≠ [] ∧
    meidlingOnlyResult.all (fun s => !wienNameMatch s) = true ∧
    resolveWienStation (some meidlingOnlyResult) = wienFallbackStation ∧
    resolveWienStation (some meidlingOnlyResult) ≠
      { id := some "1190301", name := some "Wien Meidling" } := by
  refine ⟨by decide, by decide, by decide, by decide⟩

/-- C6 (amended): the origin (Bad Vöslau) resolver falls back to the first
candidate of a non-empty result with no name match; the destination (Wien)
resolver uses the hardcoded fallback pair whenever no candidate's lowercased
name contains the expected substring — also when candidates exist. -/
theorem claim_C6_fallback_policy (s0 : Station) (rest : List Station)
    (stations : Option (List Station)) :
    ((∀ x ∈ s0 :: rest, badVoeslauNameMatch x = false) →
      resolveBadVoeslauStation (some (s0 :: rest)) = .ok s0) ∧
    ((∀ l, stations = some l → ∀ x ∈ l, wienNameMatch x = false) →
      resolveWienStation stations = wienFallbackStation) := by
  constructor
  · intro h
    have hfind : (s0 :: rest).find? badVoeslauNameMatch = none :=
      List.find?_eq_none.mpr fun x hx => by simp [h x hx]
    simp [resolveBadVoeslauStation, hfind]
  · intro h
    cases stations with
    | none => rfl
    | some l =>
      have hfind : l.find? wienNameMatch = none :=
        List.find?_eq_none.mpr fun x hx => by simp [h l rfl x hx]
      simp [resolveWienStation, hfind]

/-- C6 witness: a one-candidate Bad Vöslau search result with no matching
name resolves to that first candidate. -/
theorem claim_C6_fallback_policy_witness :
    resolveBadVoeslauStation
        (some [{ id := some "900", name := some "Leobersdorf" }]) =
      .ok { id := some "900", name := some "Leobersdorf" } :=
  (claim_C6_fallback_policy { id := some "900", name := some "Leobersdorf" } []
    none).1 (by decide)

/-- C7 counterexample: the Wien (destination) direction does not fail when
the location search returns an empty or missing result set — it resolves to
the hardcoded fallback station instead of raising NoStationsFound. -/
theorem claim_C7_cex_wien_empty_no_error :
    resolveWienStation (some []) = wienFallbackStation ∧
    resolveWienStation none = wienFallbackStation :=
  ⟨rfl, rfl⟩

/-- C7 (amended): the Bad Vöslau direction fails with the NoStationsFound
error on an empty or missing location-search result, and the failure is fatal
for that direction only — the snapshot still carries the other direction's
list and station; the Wien direction instead falls back to the hardcoded
station without error. -/
theorem claim_C7_no_stations_found (now : String) (r : FetchResult)
    (resp : DeparturesResponse) :
    resolveBadVoeslauStation none = .error noStationsFoundMsg ∧
    resolveBadVoeslauStation (some []) = .error noStationsFoundMsg ∧
    fetchBadVoeslauModel (some []) resp = .error noStationsFoundMsg ∧
    (buildSnapshot now (.error noStationsFoundMsg) (.ok r)).wienToBadVoeslau =
      transformTrainData r.trains ∧
    (buildSnapshot now (.error noStationsFoundMsg) (.ok r)).stationWienHbf =
      some { name := r.station.name, id := r.station.id } ∧
    resolveWienStation (some []) = wienFallbackStation ∧
    resolveWienStation none = wienFallbackStation :=
  ⟨rfl, rfl, rfl, rfl, rfl, rfl, rfl⟩

/-- C8 counterexample: a missing (null/undefined) upstream departures
response makes the normalization expression raise a TypeError rather than
yield the empty list. -/
theorem claim_C8_cex_null_response :
    normalizeDepartures .nullish ≠ .ok (.arr []) ∧
    normalizeDepartures .nullish =
      .error "TypeError: Cannot read properties of null" := by
  refine ⟨by simp [normalizeDepartures], rfl⟩

/-- C8 (amended): the normalization accepts a bare list as-is and takes the
`departures` list out of an object carrying one (both even when the list is
empty); a missing (null/undefined) result instead raises a TypeError for that
direction rather than normalizing to the empty list. -/
theorem claim_C8_response_normalization (items : List RawDeparture) :
    normalizeDepartures (.list items) = .ok (.arr items) ∧
    normalizeDepartures (.objWithDepartures items) = .ok (.arr items) ∧
    ∃ e, normalizeDepartures .nullish = .error e :=
  ⟨rfl, rfl, "TypeError: Cannot read properties of null", rfl⟩

/-- C9: when earlier candidates all fail the name predicate and some
candidate passes it, each resolver selects that first passing candidate,
never an earlier non-matching entry. -/
theorem claim_C9_first_match_selected (pre post : List Station) (s : Station) :
    ((∀ x ∈ pre, badVoeslauNameMatch x = false) → badVoeslauNameMatch s = true →
      resolveBadVoeslauStation (some (pre ++ s :: post)) = .ok s) ∧
    ((∀ x ∈ pre, wienNameMatch x = false) → wienNameMatch s = true →
      resolveWienStation (some (pre ++ s :: post)) = s) := by
  constructor
  · intro hpre hs
    cases pre with
    | nil =>
      rw [List.nil_append]
      simp [resolveBadVoeslauStation, List.find?_cons_of_pos _ hs]
    | cons a as =>
      rw [List.cons_append]
      have hfind : (a :: (as ++ s :: post)).find? badVoeslauNameMatch = some s := by
        rw [show a :: (as ++ s :: post) = (a :: as) ++ s :: post from rfl]
        exact find?_first _ _ _ _ hpre hs
      simp [resolveBadVoeslauStation, hfind]
  · intro hpre hs
    have hfind : (pre ++ s :: post).find? wienNameMatch = some s :=
      find?_first _ _ _ _ hpre hs
    simp [resolveWienStation, hfind]

/-- C9 witness: with a non-matching entry first, the Bad Vöslau resolver
selects the later matching candidate. -/
theorem claim_C9_first_match_selected_witness :
    resolveBadVoeslauStation
        (some [{ id := some "1", name := some "Leobersdorf" },
               { id := some "2", name := some "Bad Vöslau" }]) =
      .ok { id := some "2", name := some "Bad Vöslau" } :=
  (claim_C9_first_match_selected [{ id := some "1", name := some "Leobersdorf" }]
    [] { id := some "2", name := some "Bad Vöslau" }).1 (by decide) (by decide)

/-- C1 witness: a departure two minutes late gets `rt` with the delayed time
formatted in Europe/Vienna. -/
theorem claim_C1_rt_sub_object_witness :
    (transformOne delayedTrainDeparture).rt =
      some ⟨some (viennaHHMM (0 + 120 * 1000))⟩ :=
  (claim_C1_rt_sub_object delayedTrainDeparture).2.1 120 0 rfl (by decide) rfl

/-- C2 witness: a train-mode REX 1 departure towards Wiener Neustadt is kept
by the Wien → Bad Vöslau filter. -/
theorem claim_C2_wien_direction_filter_witness :
    rex1Departure ∈ [rex1Departure].filter keepsWienDeparture :=
  (claim_C2_wien_direction_filter [rex1Departure] rex1Departure).mpr
    ⟨List.mem_singleton_self _, rfl,
     ⟨"wiener neustadt", by decide, Or.inl ((strContains_iff _ _).mp (by decide))⟩,
     (matchesLineCode_iff _).mp (by decide)⟩

/-- C3 witness: a bus-mode departure satisfying every keyword condition is
excluded by the Bad Vöslau → Wien filter. -/
theorem claim_C3_badvoeslau_direction_filter_witness :
    busDeparture ∉ [busDeparture].filter keepsBadVoeslauDeparture :=
  (claim_C3_badvoeslau_direction_filter [busDeparture] busDeparture).2 rfl

/-- C5 witness: a failed Bad Vöslau direction leaves the fulfilled Wien
direction's data intact in the snapshot. -/
theorem claim_C5_failure_isolation_witness :
    buildSnapshot "T" (.error "boom")
        (.ok { station := wienFallbackStation, trains := [rex1Departure] }) =
      { badVoeslauToWien := []
        wienToBadVoeslau := transformTrainData [rex1Departure]
        lastUpdated := "T"
        stationBadVoeslau := none
        stationWienHbf := some
          { name := wienFallbackStation.name, id := wienFallbackStation.id } } :=
  (claim_C5_failure_isolation "T" "boom"
    { station := wienFallbackStation, trains := [rex1Departure] }).1

/-- C7 witness: the amended C7 statement at concrete inputs. -/
theorem claim_C7_no_stations_found_witness :
    fetchBadVoeslauModel (some []) (.list []) = .error noStationsFoundMsg :=
  (claim_C7_no_stations_found "T"
    { station := wienFallbackStation, trains := [] } (.list [])).2.2.1

/-- C8 witness: the amended C8 statement at the empty list. -/
theorem claim_C8_response_normalization_witness :
    normalizeDepartures (.list []) = .ok (.arr []) :=
  (claim_C8_response_normalization []).1

/-- C10 witness: a delayed departure without a scheduled time yields
`ti = "N/A"` and `rt` present with a null `dlt`. -/
theorem claim_C10_missing_when_with_delay_witness :
    (transformOne noWhenDelayedDeparture).rt = some ⟨none⟩ ∧
    (transformOne noWhenDelayedDeparture).ti = "N/A" :=
  ⟨(claim_C10_missing_when_with_delay noWhenDelayedDeparture).1.mpr
      ⟨rfl, 120, rfl, by decide⟩,
   (claim_C10_missing_when_with_delay noWhenDelayedDeparture).2 rfl⟩

end TrainTimetable
